import Mathlib

/-!
Verification development for the LOOT game-detection and load-order
mapping core.

The embedding covers:
* `src/gui/state/game/detection/generic.cpp` — registry-key table,
  install-source classifiers, sibling/registry install scans,
  game-identity resolution and configured-settings detection;
* `src/gui/state/game/game.h` — `MapFromLoadOrderData`, the three-phase
  load-order mapper.

Filesystem paths are modelled as lists of components; the C++ `/`
operator on paths becomes list append of a single component.  External
capabilities (filesystem existence checks, registry reads, the install
validator, the GOG catalogue-ID lookup and the master-filename / game
family lookups) are bundled in an `Env` record of pure functions.
C++ exceptions are modelled with `Except String`.
-/

namespace Loot

/-- A filesystem path, as its list of components. -/
abbrev Path := List String

/-- Modelled from the spec: `GameIdentity` is an enum-like closed set, one
tag per supported title or variant (the enum declaration itself is not in
the excerpt; its enumerators are those used by `generic.cpp`).  The extra
`unrecognised` constructor stands for any underlying enum value outside
the closed set, which every `switch` in the source treats uniformly via
its `default` branch. -/
inductive GameId where
  | tes3
  | tes4
  | nehrim
  | tes5
  | enderal
  | tes5se
  | enderalse
  | tes5vr
  | fo3
  | fonv
  | fo4
  | fo4vr
  | unrecognised
  deriving DecidableEq, Repr

/-- Modelled from the spec: `GameFamily` is an enum-like closed set (the
`GameType` enum of libloot, not in the excerpt); many-to-one from
`GameId`.  `unrecognised` stands for any value outside the closed set. -/
inductive GameType where
  | tes3
  | tes4
  | tes5
  | tes5se
  | tes5vr
  | fo3
  | fonv
  | fo4
  | fo4vr
  | unrecognised
  deriving DecidableEq, Repr

/-- The `InstallSource` enum: `{steam, gog, epic, microsoft, unknown}`. -/
inductive InstallSource where
  | steam
  | gog
  | epic
  | microsoft
  | unknown
  deriving DecidableEq, Repr

/-- Modelled from the spec: `RegistryLookupKey` is
`{hive: string, key: string, valueName: string}` (the `RegistryValue`
struct lives in `registry.h`, which is not in the excerpt). -/
structure RegistryValue where
  rootKey : String
  subKey : String
  valueName : String
  deriving DecidableEq, Repr

/-- Modelled from the spec: `GameInstall` is
`{identity, source, installPath, optional localDataPath}`; the struct
declaration is in `game_install.h`, not in the excerpt.  The three-field
constructions in `generic.cpp` leave the local-data path absent. -/
structure GameInstall where
  gameId : GameId
  source : InstallSource
  installPath : Path
  localDataPath : Option Path := none
  deriving DecidableEq, Repr

/-- Modelled from the spec: the user-configured game settings consumed by
`DetectGameInstall` — a (family, masterFile, path) triple plus the
configured local-data path (`GameSettings` is declared outside the
excerpt; only its accessors `Type()`, `Master()`, `GamePath()` and
`GameLocalPath()` are used by `generic.cpp`). -/
structure GameSettings where
  type : GameType
  master : String
  gamePath : Path
  gameLocalPath : Path
  deriving DecidableEq, Repr

/-- The external capabilities consumed by the detection core (spec §6):
filesystem existence checks, the install validator, the
master-filename / game-family lookups, the GOG catalogue-ID lookup and
the registry read (already composed with `ReadPathFromRegistry`). -/
structure Env where
  fs : Path → Bool
  isValidGamePath : GameType → String → Path → Bool
  getGameType : GameId → GameType
  getMasterFilename : GameId → String
  getGogGameIds : GameId → List String
  readPathFromRegistry : RegistryValue → Option Path

/-- `GetRegistryValue` from `generic.cpp`: the static registry-key table,
one entry per game ID; the `default` branch throws a logic error. -/
def GetRegistryValue : GameId → Except String RegistryValue
  | .tes3 =>
      .ok ⟨"HKEY_LOCAL_MACHINE", "Software\\Bethesda Softworks\\Morrowind",
        "Installed Path"⟩
  | .tes4 =>
      .ok ⟨"HKEY_LOCAL_MACHINE", "Software\\Bethesda Softworks\\Oblivion",
        "Installed Path"⟩
  | .nehrim =>
      .ok ⟨"HKEY_LOCAL_MACHINE",
        "Software\\Microsoft\\Windows\\CurrentVersion\\Uninstall\\Nehrim - At Fate's Edge_is1",
        "InstallLocation"⟩
  | .tes5 =>
      .ok ⟨"HKEY_LOCAL_MACHINE", "Software\\Bethesda Softworks\\Skyrim",
        "Installed Path"⟩
  | .enderal =>
      .ok ⟨"HKEY_CURRENT_USER", "SOFTWARE\\SureAI\\Enderal", "Install_Path"⟩
  | .tes5se =>
      .ok ⟨"HKEY_LOCAL_MACHINE",
        "Software\\Bethesda Softworks\\Skyrim Special Edition",
        "Installed Path"⟩
  | .enderalse =>
      .ok ⟨"HKEY_CURRENT_USER", "SOFTWARE\\SureAI\\EnderalSE", "Install_Path"⟩
  | .tes5vr =>
      .ok ⟨"HKEY_LOCAL_MACHINE", "Software\\Bethesda Softworks\\Skyrim VR",
        "Installed Path"⟩
  | .fo3 =>
      .ok ⟨"HKEY_LOCAL_MACHINE", "Software\\Bethesda Softworks\\Fallout3",
        "Installed Path"⟩
  | .fonv =>
      .ok ⟨"HKEY_LOCAL_MACHINE", "Software\\Bethesda Softworks\\FalloutNV",
        "Installed Path"⟩
  | .fo4 =>
      .ok ⟨"HKEY_LOCAL_MACHINE", "Software\\Bethesda Softworks\\Fallout4",
        "Installed Path"⟩
  | .fo4vr =>
      .ok ⟨"HKEY_LOCAL_MACHINE", "Software\\Bethesda Softworks\\Fallout 4 VR",
        "Installed Path"⟩
  | .unrecognised => .error "Unrecognised game ID"

/-- `IsSteamInstall` from `generic.cpp`: the per-identity Steam rule
table — a cloud-save marker for Morrowind, a Steam runtime DLL for
Nehrim, always-true for the Steam-exclusive releases, a generic
install-script marker for the rest; unknown IDs throw. -/
def IsSteamInstall (env : Env) (gameId : GameId) (installPath : Path) :
    Except String Bool :=
  match gameId with
  | .tes3 => .ok (env.fs (installPath ++ ["steam_autocloud.vdf"]))
  | .nehrim => .ok (env.fs (installPath ++ ["steam_api.dll"]))
  | .tes5 | .tes5vr | .fo4vr =>
      -- Only released on Steam.
      .ok true
  | .tes4 | .tes5se | .enderal | .enderalse | .fo3 | .fonv | .fo4 =>
      -- Most games have an installscript.vdf file in their Steam install.
      .ok (env.fs (installPath ++ ["installscript.vdf"]))
  | .unrecognised => .error "Unrecognised game ID"

/-- `IsGogInstall` from `generic.cpp`: true iff some GOG catalogue ID for
the game has its icon file `goggame-<id>.ico` in the install path. -/
def IsGogInstall (env : Env) (gameId : GameId) (installPath : Path) : Bool :=
  (env.getGogGameIds gameId).any fun gogGameId =>
    env.fs (installPath ++ ["goggame-" ++ gogGameId ++ ".ico"])

/-- `IsEpicInstall` from `generic.cpp`: true iff the `.egstore` store
metadata directory exists in the install path. -/
def IsEpicInstall (env : Env) (installPath : Path) : Bool :=
  env.fs (installPath ++ [".egstore"])

/-- `IsMicrosoftInstall` from `generic.cpp`: true iff the
`appxmanifest.xml` store manifest exists in the install path. -/
def IsMicrosoftInstall (env : Env) (installPath : Path) : Bool :=
  env.fs (installPath ++ ["appxmanifest.xml"])

/-- `FindGameInstallInRegistry` from `generic.cpp`: read the generic
registry key; if it yields a path that the external validator accepts,
classify using only the Steam and GOG checks (the generic registry keys
are not written by EGS or the MS Store), falling back to `unknown`. -/
def FindGameInstallInRegistry (env : Env) (gameId : GameId) :
    Except String (Option GameInstall) := do
  let registryValue ← GetRegistryValue gameId
  match env.readPathFromRegistry registryValue with
  | some path =>
    if env.isValidGamePath (env.getGameType gameId)
        (env.getMasterFilename gameId) path then
      if ← IsSteamInstall env gameId path then
        return some ⟨gameId, .steam, path, none⟩
      else if IsGogInstall env gameId path then
        return some ⟨gameId, .gog, path, none⟩
      else
        return some ⟨gameId, .unknown, path, none⟩
    else
      return none
  | none => return none

/-- `FindSiblingGameInstall` from `generic.cpp`: the candidate path is the
parent directory `".."`; if the validator rejects it, return nothing,
otherwise classify Steam → GOG → Epic → Microsoft → unknown and emit a
`GameInstall` (with no local-data path).  The emitted identity is the
input `gameId`. -/
def FindSiblingGameInstall (env : Env) (gameId : GameId) :
    Except String (Option GameInstall) := do
  let path : Path := [".."]
  if !env.isValidGamePath (env.getGameType gameId)
      (env.getMasterFilename gameId) path then
    return none
  if ← IsSteamInstall env gameId path then
    return some ⟨gameId, .steam, path, none⟩
  else if IsGogInstall env gameId path then
    return some ⟨gameId, .gog, path, none⟩
  else if IsEpicInstall env path then
    return some ⟨gameId, .epic, path, none⟩
  else if IsMicrosoftInstall env path then
    return some ⟨gameId, .microsoft, path, none⟩
  else
    return some ⟨gameId, .unknown, path, none⟩

/-- `DetectGameId` from `generic.cpp`: map a game type and install path to
a game identity, checking the per-family variant launcher executable for
the families that have a total-conversion variant; unknown types throw. -/
def DetectGameId (env : Env) (gameType : GameType) (installPath : Path) :
    Except String GameId :=
  match gameType with
  | .tes3 => .ok .tes3
  | .tes4 =>
      .ok (if env.fs (installPath ++ ["NehrimLauncher.exe"]) then .nehrim
        else .tes4)
  | .tes5 =>
      .ok (if env.fs (installPath ++ ["Enderal Launcher.exe"]) then .enderal
        else .tes5)
  | .tes5se =>
      .ok (if env.fs (installPath ++ ["Enderal Launcher.exe"]) then .enderalse
        else .tes5se)
  | .tes5vr => .ok .tes5vr
  | .fo3 => .ok .fo3
  | .fonv => .ok .fonv
  | .fo4 => .ok .fo4
  | .fo4vr => .ok .fo4vr
  | .unrecognised => .error "Unrecognised game ID"

/-- `loot::generic::FindGameInstalls` from `generic.cpp`: the sibling-scan
result (if any) followed by the registry-scan result (if any), with no
de-duplication. -/
def FindGameInstalls (env : Env) (gameId : GameId) :
    Except String (List GameInstall) := do
  let sibling ← FindSiblingGameInstall env gameId
  let registryInstall ← FindGameInstallInRegistry env gameId
  return sibling.toList ++ registryInstall.toList

/-- `loot::generic::DetectGameInstall` from `generic.cpp`: validate the
configured (type, master, path) triple; if valid, resolve the game ID
from the configured type and path and classify the source with the full
Steam → GOG → Epic → Microsoft → unknown priority list, carrying the
configured local-data path. -/
def DetectGameInstall (env : Env) (settings : GameSettings) :
    Except String (Option GameInstall) := do
  if !env.isValidGamePath settings.type settings.master settings.gamePath then
    return none
  let installPath := settings.gamePath
  let gameId ← DetectGameId env settings.type installPath
  if ← IsSteamInstall env gameId installPath then
    return some ⟨gameId, .steam, installPath, some settings.gameLocalPath⟩
  else if IsGogInstall env gameId installPath then
    return some ⟨gameId, .gog, installPath, some settings.gameLocalPath⟩
  else if IsEpicInstall env installPath then
    return some ⟨gameId, .epic, installPath, some settings.gameLocalPath⟩
  else if IsMicrosoftInstall env installPath then
    return some ⟨gameId, .microsoft, installPath, some settings.gameLocalPath⟩
  else
    return some ⟨gameId, .unknown, installPath, some settings.gameLocalPath⟩

/-- The four-way priority list of the spec (§4.2): Steam is checked
first, then GOG, then Epic, then Microsoft; first match wins; if none
match, the source is `unknown`.  Used to state classification claims. -/
def classifySource (steam gog epic microsoft : Bool) : InstallSource :=
  if steam then .steam
  else if gog then .gog
  else if epic then .epic
  else if microsoft then .microsoft
  else .unknown

/-! ## The load-order mapper (`MapFromLoadOrderData`, `game.h`)

The `gui::Game` object is consumed through three members only:
`GetPlugin` (name → possibly-null plugin pointer), the plugin's
`IsLightPlugin`, and `IsPluginActive` (by name).  We model plugins by an
abstract type `P` and the game by a record of those three functions.
The caller-supplied `mapper` may throw; we model it (and the C++
`std::variant<T, std::string>` slot type) with `Except String`. -/

/-- The slice of `gui::Game` consumed by `MapFromLoadOrderData`. -/
structure GuiGame (P : Type u) where
  getPlugin : String → Option P
  isLightPlugin : P → Bool
  isPluginActive : String → Bool

/-- The `LoadOrderTuple` of `game.h`:
`(plugin, optional active load-order index, is-active flag)`. -/
abbrev LoadOrderTuple (P : Type u) := P × Option Nat × Bool

/-- Phase 1 of `MapFromLoadOrderData` (`game.h`), with the two running
counters (`numberOfActiveLightPlugins`, `numberOfActiveNormalPlugins`)
made explicit arguments: walk the load order; skip names whose plugin
lookup returns nothing; for found plugins record the plugin, the active
load-order index (the current same-kind counter, only when active) and
the active flag, then bump the matching counter when active. -/
def buildLoadOrderDataAux (game : GuiGame P) :
    List String → Nat → Nat → List (LoadOrderTuple P)
  | [], _, _ => []
  | pluginName :: rest, numberOfActiveLightPlugins,
      numberOfActiveNormalPlugins =>
    match game.getPlugin pluginName with
    | none =>
        buildLoadOrderDataAux game rest numberOfActiveLightPlugins
          numberOfActiveNormalPlugins
    | some plugin =>
        let isLight := game.isLightPlugin plugin
        let isActive := game.isPluginActive pluginName
        let numberOfActivePlugins :=
          if isLight then numberOfActiveLightPlugins
          else numberOfActiveNormalPlugins
        let activeLoadOrderIndex :=
          if isActive then some numberOfActivePlugins else none
        (plugin, activeLoadOrderIndex, isActive) ::
          buildLoadOrderDataAux game rest
            (if isActive && isLight then numberOfActiveLightPlugins + 1
              else numberOfActiveLightPlugins)
            (if isActive && !isLight then numberOfActiveNormalPlugins + 1
              else numberOfActiveNormalPlugins)

/-- Phase 1 of `MapFromLoadOrderData`, both counters starting at zero. -/
def buildLoadOrderData (game : GuiGame P) (loadOrder : List String) :
    List (LoadOrderTuple P) :=
  buildLoadOrderDataAux game loadOrder 0 0

/-- The `transformer` lambda of `MapFromLoadOrderData`: apply the mapper
to a load-order tuple; a thrown exception is captured as the message
alternative of the slot (`std::variant<T, std::string>`), here the
`Except.error` case. -/
def transformer (mapper : P → Option Nat → Bool → Except String T)
    (loadOrderTuple : LoadOrderTuple P) : Except String T :=
  mapper loadOrderTuple.1 loadOrderTuple.2.1 loadOrderTuple.2.2

/-- Phase 3 of `MapFromLoadOrderData`: scan the slots in order, pushing
success values; the first failure slot aborts the scan and its message
is rethrown (the partial vector is discarded). -/
def collectMapped : List (Except String T) → Except String (List T)
  | [] => .ok []
  | .ok mappedData :: rest =>
      (collectMapped rest).map fun mapped => mappedData :: mapped
  | .error e :: _ => .error e

/-- `MapFromLoadOrderData` from `game.h`, with phase 2 (the parallel
`std::transform`) modelled by the in-order `List.map` it computes; the
schedule-irrelevance of phase 2 is proved separately against
`MapFromLoadOrderDataConc`. -/
def MapFromLoadOrderData (game : GuiGame P) (loadOrder : List String)
    (mapper : P → Option Nat → Bool → Except String T) :
    Except String (List T) :=
  let data := buildLoadOrderData game loadOrder
  let maybeMappedData := data.map (transformer mapper)
  collectMapped maybeMappedData

/-- One phase-2 worker step: if `i` is in range, write slot `i` of the
preallocated output with the transformed `i`-th tuple.  Slots are
`Option`-valued, `none` marking a not-yet-written slot. -/
def writeSlot (f : α → β) (data : List α) (slots : List (Option β))
    (i : Nat) : List (Option β) :=
  match data[i]? with
  | some x => slots.set i (some (f x))
  | none => slots

/-- The slot array after running the phase-2 writes in the order given by
`sched` (a schedule: the sequence in which the parallel workers complete
the per-index writes), starting from the preallocated all-`none` array. -/
def slotsAfter (f : α → β) (data : List α) (sched : List Nat) :
    List (Option β) :=
  sched.foldl (writeSlot f data) (List.replicate data.length none)

/-- `MapFromLoadOrderData` with phase 2 executed under an explicit worker
schedule: run the writes in schedule order, then (phase 3 assumes every
slot is populated) collect; `none` if the schedule left a slot
unwritten. -/
def MapFromLoadOrderDataConc (game : GuiGame P) (loadOrder : List String)
    (mapper : P → Option Nat → Bool → Except String T)
    (sched : List Nat) : Option (Except String (List T)) :=
  let data := buildLoadOrderData game loadOrder
  let slots := slotsAfter (transformer mapper) data sched
  if slots.all Option.isSome then some (collectMapped slots.reduceOption)
  else none

/-- Phase 1 as the spec words it (§4.4): restrict the load order to the
names whose plugin lookup succeeds (preserving relative order); the
`i`-th found plugin's active index is the count of active plugins of the
same light/non-light kind among the previous found entries, assigned
exactly when it is active.  `acc` is the list of previous found
(name, plugin) entries. -/
def phase1SpecAux (game : GuiGame P) :
    List (String × P) → List (String × P) → List (LoadOrderTuple P)
  | [], _ => []
  | (name, plugin) :: rest, acc =>
      let isLight := game.isLightPlugin plugin
      let isActive := game.isPluginActive name
      let previousSameKindActive :=
        acc.countP fun entry =>
          game.isPluginActive entry.1 &&
            (game.isLightPlugin entry.2 == isLight)
      (plugin, if isActive then some previousSameKindActive else none,
          isActive) ::
        phase1SpecAux game rest (acc ++ [(name, plugin)])

/-- The found (name, plugin) entries of a load order, in order. -/
def foundPlugins (game : GuiGame P) (loadOrder : List String) :
    List (String × P) :=
  loadOrder.filterMap fun name =>
    (game.getPlugin name).map fun plugin => (name, plugin)

/-- Phase 1 as the spec words it, from the start of the load order. -/
def phase1Spec (game : GuiGame P) (loadOrder : List String) :
    List (LoadOrderTuple P) :=
  phase1SpecAux game (foundPlugins game loadOrder) []

/-! ## Concrete test fixtures

Closed environments, games and mappers used to evaluate the theorems on
concrete inputs. -/

/-- A filesystem with both the Steam install-script marker and a GOG icon
file in the directory `G`; the registry points at `G`. -/
def envW : Env where
  fs := fun p =>
    p == ["G", "installscript.vdf"] || p == ["G", "goggame-123.ico"]
  isValidGamePath := fun _ _ _ => true
  getGameType := fun _ => .tes4
  getMasterFilename := fun _ => "Oblivion.esm"
  getGogGameIds := fun _ => ["123"]
  readPathFromRegistry := fun _ => some ["G"]

/-- Configured settings naming the directory `G` and local-data path `L`. -/
def settingsW : GameSettings := ⟨.tes4, "Oblivion.esm", ["G"], ["L"]⟩

/-- A filesystem with only a GOG icon file in the directory `R`; the
registry points at `R`. -/
def envG : Env where
  fs := fun p => p == ["R", "goggame-123.ico"]
  isValidGamePath := fun _ _ _ => true
  getGameType := fun _ => .tes4
  getMasterFilename := fun _ => "Oblivion.esm"
  getGogGameIds := fun _ => ["123"]
  readPathFromRegistry := fun _ => some ["R"]

/-- A filesystem in which only the Nehrim variant marker below the parent
directory exists; every path is a valid game path, GOG knows no
catalogue IDs, and the registry is empty. -/
def envN : Env where
  fs := fun p => p == ["..", "NehrimLauncher.exe"]
  isValidGamePath := fun _ _ _ => true
  getGameType := fun _ => .tes4
  getMasterFilename := fun _ => "Oblivion.esm"
  getGogGameIds := fun _ => []
  readPathFromRegistry := fun _ => none

/-- A filesystem where the parent directory is a valid GOG install and
the registry also points at the parent directory, so the sibling scan
and the registry scan discover the same install. -/
def envD : Env where
  fs := fun p => p == ["..", "goggame-123.ico"]
  isValidGamePath := fun _ _ _ => true
  getGameType := fun _ => .tes4
  getMasterFilename := fun _ => "Oblivion.esm"
  getGogGameIds := fun _ => ["123"]
  readPathFromRegistry := fun _ => some [".."]

/-- A game with plugins `a.esp`, `c.esp` (and no `b.esp`), all active,
none light. -/
def gameW : GuiGame String where
  getPlugin := fun n => if n == "b.esp" then none else some n
  isLightPlugin := fun p => p == "l1.esl"
  isPluginActive := fun _ => true

/-- A mapper that fails on `c.esp` and succeeds elsewhere. -/
def mapperW : String → Option Nat → Bool → Except String String :=
  fun p _ _ => if p == "c.esp" then .error "boom" else .ok p

/-- A mapper that always succeeds, returning the plugin itself. -/
def mapperOk : String → Option Nat → Bool → Except String String :=
  fun p _ _ => .ok p

/-! ## Helper lemmas -/

section Lemmas

variable {P : Type u} {T : Type v}

/-- Phase 1 with the counters generalised: running the loop with the two
counters seeded from an accumulator of previously found entries computes
the spec-level numbering relative to that accumulator. -/
theorem buildLoadOrderDataAux_eq_specAux (game : GuiGame P)
    (names : List String) :
    ∀ acc : List (String × P),
    buildLoadOrderDataAux game names
      (acc.countP fun e => game.isPluginActive e.1 && game.isLightPlugin e.2)
      (acc.countP fun e =>
        game.isPluginActive e.1 && !(game.isLightPlugin e.2))
      = phase1SpecAux game (foundPlugins game names) acc := by
  induction names with
  | nil =>
    intro acc
    simp [buildLoadOrderDataAux, foundPlugins, phase1SpecAux]
  | cons name rest ih =>
    intro acc
    cases h : game.getPlugin name with
    | none =>
      simpa [buildLoadOrderDataAux, h, foundPlugins, List.filterMap_cons]
        using ih acc
    | some plugin =>
      have tail := ih (acc ++ [(name, plugin)])
      rw [List.countP_append, List.countP_append] at tail
      simp only [buildLoadOrderDataAux, h, foundPlugins, List.filterMap_cons,
        Option.map_some', phase1SpecAux] at tail ⊢
      cases hA : game.isPluginActive name <;>
        cases hL : game.isLightPlugin plugin <;>
          simp_all [List.countP_cons, foundPlugins]

/-- `phase1SpecAux` yields one tuple per found entry. -/
theorem phase1SpecAux_length (game : GuiGame P) (l : List (String × P)) :
    ∀ acc, (phase1SpecAux game l acc).length = l.length := by
  induction l with
  | nil => intro acc; simp [phase1SpecAux]
  | cons e rest ih => intro acc; simp [phase1SpecAux, ih]

/-- Phase 3 on all-success slots returns the ordered success values. -/
theorem collectMapped_ok (l : List α) (g : α → Except String T) (f : α → T)
    (h : ∀ x ∈ l, g x = .ok (f x)) :
    collectMapped (l.map g) = .ok (l.map f) := by
  induction l with
  | nil => simp [collectMapped]
  | cons x rest ih =>
    have hx := h x (by simp)
    simp only [List.map_cons, hx, collectMapped]
    rw [ih fun y hy => h y (by simp [hy])]
    rfl

/-- Phase 3 rethrows the message of the first failure slot. -/
theorem collectMapped_error (l : List (Except String T)) :
    ∀ (i : Nat) (e : String), l[i]? = some (.error e) →
    (∀ j, j < i → ∃ v, l[j]? = some (.ok v)) →
    collectMapped l = .error e := by
  induction l with
  | nil => intro i e h _; simp at h
  | cons x rest ih =>
    intro i e h hprior
    cases i with
    | zero =>
      simp at h
      simp [h, collectMapped]
    | succ j =>
      obtain ⟨v, hv⟩ := hprior 0 (Nat.succ_pos j)
      simp at hv
      subst hv
      simp only [collectMapped]
      rw [ih j e (by simpa using h)
        (fun k hk => by simpa using hprior (k + 1) (Nat.succ_lt_succ hk))]
      rfl

/-- Pointwise effect of one phase-2 slot write. -/
theorem writeSlot_getElem? (f : α → β) (data : List α)
    (slots : List (Option β)) (i j : Nat) (hlen : slots.length = data.length) :
    (writeSlot f data slots i)[j]? =
      if i = j ∧ j < data.length then (data[j]?).map (fun x => some (f x))
      else slots[j]? := by
  unfold writeSlot
  by_cases hlt : i < data.length
  · rw [List.getElem?_eq_getElem hlt]
    by_cases hij : i = j
    · subst hij
      rw [if_pos ⟨rfl, hlt⟩, List.getElem?_set_self (hlen ▸ hlt),
        List.getElem?_eq_getElem hlt]
      rfl
    · rw [if_neg (fun h => hij h.1)]
      exact List.getElem?_set_ne hij
  · rw [List.getElem?_eq_none (Nat.le_of_not_lt hlt)]
    by_cases hij : i = j
    · subst hij; rw [if_neg (fun h => hlt h.2)]
    · rw [if_neg (fun h => hij h.1)]

/-- Slot writes preserve the slot-array length. -/
theorem writeSlot_length (f : α → β) (data : List α)
    (slots : List (Option β)) (i : Nat) :
    (writeSlot f data slots i).length = slots.length := by
  unfold writeSlot
  cases data[i]? <;> simp

/-- After any sequence of phase-2 writes, slot `j` holds the transform of
the `j`-th tuple when `j` was scheduled, and is untouched otherwise. -/
theorem foldl_writeSlot_getElem? (f : α → β) (data : List α)
    (sched : List Nat) :
    ∀ (init : List (Option β)), init.length = data.length →
    ∀ j, (sched.foldl (writeSlot f data) init)[j]? =
      if j ∈ sched ∧ j < data.length then (data[j]?).map (fun x => some (f x))
      else init[j]? := by
  induction sched with
  | nil => intro init hlen j; simp
  | cons i rest ih =>
    intro init hlen j
    rw [List.foldl_cons, ih _ ((writeSlot_length f data init i).trans hlen) j,
      writeSlot_getElem? f data init i j hlen]
    by_cases hjr : j ∈ rest ∧ j < data.length
    · rw [if_pos hjr, if_pos ⟨List.mem_cons.mpr (Or.inr hjr.1), hjr.2⟩]
    · rw [if_neg hjr]
      by_cases hij : i = j
      · subst hij
        by_cases hlt : i < data.length
        · rw [if_pos ⟨rfl, hlt⟩, if_pos ⟨List.mem_cons_self i rest, hlt⟩]
        · rw [if_neg (fun h => hlt h.2), if_neg (fun h => hlt h.2)]
      · rw [if_neg (fun h => hij h.1),
          if_neg (fun h => hjr ⟨(List.mem_cons.mp h.1).resolve_left
            (fun he => hij he.symm), h.2⟩)]

/-- A schedule that covers every index fills the slots with exactly the
in-order transforms of the phase-1 tuples. -/
theorem slotsAfter_eq (f : α → β) (data : List α) (sched : List Nat)
    (hcover : ∀ j, j < data.length → j ∈ sched) :
    slotsAfter f data sched = (data.map f).map some := by
  apply List.ext_getElem?
  intro j
  unfold slotsAfter
  rw [foldl_writeSlot_getElem? f data sched _ (List.length_replicate _ _) j]
  by_cases hlt : j < data.length
  · rw [if_pos ⟨hcover j hlt, hlt⟩]
    simp [List.getElem?_eq_getElem hlt, Function.comp]
  · rw [if_neg (fun h => hlt h.2), List.getElem?_replicate,
      if_neg hlt]
    rw [List.getElem?_eq_none]
    simp [Nat.le_of_not_lt hlt]

/-- Removing the `some` wrappers a complete phase 2 produced. -/
theorem reduceOption_map_some (l : List α) : (l.map some).reduceOption = l := by
  induction l with
  | nil => rfl
  | cons x rest ih => simp [List.reduceOption_cons_of_some, ih]

/-- Every slot of a completely-written slot array is populated. -/
theorem all_isSome_map_some (l : List α) :
    (l.map some).all Option.isSome = true := by
  induction l with
  | nil => rfl
  | cons x rest ih => simp [ih]

/-- `DetectGameInstall` on a valid configured path classifies the source
by the four-way priority list and carries the configured local path. -/
theorem DetectGameInstall_classify (env : Env) (settings : GameSettings)
    (gid : GameId) (s : Bool)
    (hvalid : env.isValidGamePath settings.type settings.master
      settings.gamePath = true)
    (hgid : DetectGameId env settings.type settings.gamePath = .ok gid)
    (hsteam : IsSteamInstall env gid settings.gamePath = .ok s) :
    DetectGameInstall env settings =
      .ok (some ⟨gid,
        classifySource s (IsGogInstall env gid settings.gamePath)
          (IsEpicInstall env settings.gamePath)
          (IsMicrosoftInstall env settings.gamePath),
        settings.gamePath, some settings.gameLocalPath⟩) := by
  simp only [DetectGameInstall, hvalid, Bool.not_true, hgid]
  cases s <;>
    cases hg : IsGogInstall env gid settings.gamePath <;>
      cases he : IsEpicInstall env settings.gamePath <;>
        cases hm : IsMicrosoftInstall env settings.gamePath <;>
          simp [classifySource, hg, he, hm, hsteam, Bind.bind, Except.bind,
            pure, Except.pure]

/-- The sibling scan on a valid parent directory classifies the source by
the four-way priority list and emits no local-data path. -/
theorem FindSiblingGameInstall_classify (env : Env) (gid : GameId) (s : Bool)
    (hvalid : env.isValidGamePath (env.getGameType gid)
      (env.getMasterFilename gid) [".."] = true)
    (hsteam : IsSteamInstall env gid [".."] = .ok s) :
    FindSiblingGameInstall env gid =
      .ok (some ⟨gid,
        classifySource s (IsGogInstall env gid [".."])
          (IsEpicInstall env [".."]) (IsMicrosoftInstall env [".."]),
        [".."], none⟩) := by
  simp only [FindSiblingGameInstall, hvalid, Bool.not_true]
  cases s <;>
    cases hg : IsGogInstall env gid [".."] <;>
      cases he : IsEpicInstall env [".."] <;>
        cases hm : IsMicrosoftInstall env [".."] <;>
          simp [classifySource, hg, he, hm, hsteam, Bind.bind, Except.bind,
            pure, Except.pure]

/-- `DetectGameId` never throws on a recognised game type, and the
identity it yields is itself recognised. -/
theorem DetectGameId_isOk (env : Env) (t : GameType) (p : Path)
    (h : t ≠ .unrecognised) :
    ∃ gid, DetectGameId env t p = .ok gid ∧ gid ≠ .unrecognised := by
  cases t with
  | unrecognised => exact absurd rfl h
  | tes4 =>
    cases hf : env.fs (p ++ ["NehrimLauncher.exe"]) <;>
      · simp only [DetectGameId, hf]
        exact ⟨_, rfl, by simp⟩
  | tes5 =>
    cases hf : env.fs (p ++ ["Enderal Launcher.exe"]) <;>
      · simp only [DetectGameId, hf]
        exact ⟨_, rfl, by simp⟩
  | tes5se =>
    cases hf : env.fs (p ++ ["Enderal Launcher.exe"]) <;>
      · simp only [DetectGameId, hf]
        exact ⟨_, rfl, by simp⟩
  | _ => exact ⟨_, rfl, by simp⟩

/-- `IsSteamInstall` never throws on a recognised game identity. -/
theorem IsSteamInstall_isOk (env : Env) (gid : GameId) (p : Path)
    (h : gid ≠ .unrecognised) :
    ∃ s, IsSteamInstall env gid p = .ok s := by
  cases gid with
  | unrecognised => exact absurd rfl h
  | _ => exact ⟨_, rfl⟩

end Lemmas

/-! ## The claims -/

section Claims

variable {P : Type u} {T : Type v}

/-- C1: Source classification in `DetectGameInstall` and in the sibling
scan is a strict priority list evaluated Steam, then GOG, then Epic,
then Microsoft, with first match winning and `unknown` returned only
when no marker matches; in particular, if both a Steam marker and a GOG
icon file are present in the same path, the classified source is
steam. -/
theorem claim_c1 :
    (∀ (env : Env) (settings : GameSettings) (gid : GameId) (s : Bool),
      env.isValidGamePath settings.type settings.master settings.gamePath =
        true →
      DetectGameId env settings.type settings.gamePath = .ok gid →
      IsSteamInstall env gid settings.gamePath = .ok s →
      DetectGameInstall env settings =
        .ok (some ⟨gid,
          classifySource s (IsGogInstall env gid settings.gamePath)
            (IsEpicInstall env settings.gamePath)
            (IsMicrosoftInstall env settings.gamePath),
          settings.gamePath, some settings.gameLocalPath⟩)) ∧
    (∀ (env : Env) (gid : GameId) (s : Bool),
      env.isValidGamePath (env.getGameType gid) (env.getMasterFilename gid)
        [".."] = true →
      IsSteamInstall env gid [".."] = .ok s →
      FindSiblingGameInstall env gid =
        .ok (some ⟨gid,
          classifySource s (IsGogInstall env gid [".."])
            (IsEpicInstall env [".."]) (IsMicrosoftInstall env [".."]),
          [".."], none⟩)) ∧
    (∀ s g e m : Bool,
      (classifySource s g e m = .unknown ↔
        s = false ∧ g = false ∧ e = false ∧ m = false) ∧
      (s = true → classifySource s g e m = .steam)) := by
  refine ⟨?_, ?_, ?_⟩
  · intro env settings gid s hvalid hgid hsteam
    exact DetectGameInstall_classify env settings gid s hvalid hgid hsteam
  · intro env gid s hvalid hsteam
    exact FindSiblingGameInstall_classify env gid s hvalid hsteam
  · intro s g e m
    cases s <;> cases g <;> cases e <;> cases m <;> simp [classifySource]

/-- C1 witness: in a directory holding both a Steam install-script marker
and a GOG icon file, `DetectGameInstall` classifies the source as
steam. -/
theorem claim_c1_witness :
    DetectGameInstall envW settingsW =
      .ok (some ⟨GameId.tes4, InstallSource.steam, ["G"], some ["L"]⟩) ∧
    IsGogInstall envW GameId.tes4 ["G"] = true :=
  ⟨claim_c1.1 envW settingsW GameId.tes4 true rfl rfl rfl, rfl⟩

/-- C2: the registry-scan branch classifies a validated registry path
using only the Steam check and then the GOG check, unmatched paths fall
to `unknown`, and the registry branch never returns a `GameInstall` with
source epic or microsoft. -/
theorem claim_c2 :
    (∀ (env : Env) (gid : GameId) (rv : RegistryValue) (p : Path) (s : Bool),
      GetRegistryValue gid = .ok rv →
      env.readPathFromRegistry rv = some p →
      env.isValidGamePath (env.getGameType gid) (env.getMasterFilename gid)
        p = true →
      IsSteamInstall env gid p = .ok s →
      FindGameInstallInRegistry env gid =
        .ok (some ⟨gid,
          if s then .steam
          else if IsGogInstall env gid p then .gog
          else .unknown, p, none⟩)) ∧
    (∀ (env : Env) (gid : GameId) (gi : GameInstall),
      FindGameInstallInRegistry env gid = .ok (some gi) →
      gi.source ≠ .epic ∧ gi.source ≠ .microsoft) := by
  constructor
  · intro env gid rv p s hrv hpath hvalid hsteam
    simp only [FindGameInstallInRegistry, hrv, hpath, hvalid, Bind.bind,
      Except.bind, hsteam]
    cases s <;>
      cases hg : IsGogInstall env gid p <;>
        simp [hg, pure, Except.pure]
  · intro env gid gi h
    simp only [FindGameInstallInRegistry, Bind.bind, Except.bind, pure,
      Except.pure] at h
    repeat' split at h
    all_goals simp_all
    all_goals (subst h; simp)

/-- C2 witness: a registry path holding only a GOG icon is classified as
gog by the registry branch. -/
theorem claim_c2_witness :
    FindGameInstallInRegistry envG GameId.tes4 =
      .ok (some ⟨GameId.tes4, InstallSource.gog, ["R"], none⟩) :=
  claim_c2.1 envG GameId.tes4
    ⟨"HKEY_LOCAL_MACHINE", "Software\\Bethesda Softworks\\Oblivion",
      "Installed Path"⟩
    ["R"] false rfl rfl rfl rfl

/-- C3: phase 1 of `MapFromLoadOrderData` processes names in load-order
order, silently skips any name whose plugin lookup returns nothing
(preserving relative order of the rest, so the intermediate sequence may
be shorter than the input), and assigns each found plugin an active
index equal to the running count of previously found active plugins of
the same kind (light and non-light counted independently, dense and
zero-based) exactly when the plugin is active, and no index when
inactive — stated as equality with the spec-level `phase1Spec`. -/
theorem claim_c3 (game : GuiGame P) (loadOrder : List String) :
    buildLoadOrderData game loadOrder = phase1Spec game loadOrder ∧
    (buildLoadOrderData game loadOrder).length =
      (foundPlugins game loadOrder).length := by
  have h := buildLoadOrderDataAux_eq_specAux game loadOrder []
  simp only [List.countP_nil] at h
  have heq : buildLoadOrderData game loadOrder = phase1Spec game loadOrder := h
  exact ⟨heq, heq ▸ phase1SpecAux_length game _ []⟩

/-- C4: if every mapper application on the phase-1 tuples succeeds,
`MapFromLoadOrderData` returns the ordered sequence of all success
values; if any fails, it raises a single failure carrying the message of
the first failing slot in phase-1 order. -/
theorem claim_c4 (game : GuiGame P) (loadOrder : List String)
    (mapper : P → Option Nat → Bool → Except String T) :
    (∀ f : LoadOrderTuple P → T,
      (∀ t ∈ buildLoadOrderData game loadOrder,
        transformer mapper t = .ok (f t)) →
      MapFromLoadOrderData game loadOrder mapper =
        .ok ((buildLoadOrderData game loadOrder).map f)) ∧
    (∀ (i : Nat) (t : LoadOrderTuple P) (e : String),
      (buildLoadOrderData game loadOrder)[i]? = some t →
      transformer mapper t = .error e →
      (∀ j tj, j < i → (buildLoadOrderData game loadOrder)[j]? = some tj →
        ∃ v, transformer mapper tj = .ok v) →
      MapFromLoadOrderData game loadOrder mapper = .error e) := by
  constructor
  · intro f hf
    exact collectMapped_ok _ _ f hf
  · intro i t e ht herr hok
    apply collectMapped_error _ i e
    · rw [List.getElem?_map, ht, Option.map_some', herr]
    · intro j hj
      have hlt : i < (buildLoadOrderData game loadOrder).length :=
        (List.getElem?_eq_some_iff.mp ht).1
      have hjlt : j < (buildLoadOrderData game loadOrder).length :=
        Nat.lt_trans hj hlt
      obtain ⟨v, hv⟩ := hok j
        ((buildLoadOrderData game loadOrder).get ⟨j, hjlt⟩) hj
        (by rw [List.getElem?_eq_getElem hjlt]; rfl)
      exact ⟨v, by rw [List.getElem?_map, List.getElem?_eq_getElem hjlt,
        Option.map_some']; exact congrArg some hv⟩

/-- C4 witness: with a mapper failing on the second of two found plugins,
the whole call raises that failure's message. -/
theorem claim_c4_witness :
    MapFromLoadOrderData gameW ["a.esp", "c.esp"] mapperW = .error "boom" :=
  (claim_c4 gameW ["a.esp", "c.esp"] mapperW).2 1 ("c.esp", some 1, true)
    "boom" rfl rfl
    (fun j tj hj htj => by
      have hj0 : j = 0 := Nat.lt_one_iff.mp hj
      subst hj0
      rw [show (buildLoadOrderData gameW ["a.esp", "c.esp"])[0]? =
        some (("a.esp", some 0, true) : LoadOrderTuple String) from rfl] at htj
      obtain rfl := Option.some_inj.mp htj
      exact ⟨"a.esp", rfl⟩)

/-- C5: the result of `MapFromLoadOrderData` is independent of the
execution order of the concurrent phase 2: under any worker schedule
covering every index, each result lands in the slot of its phase-1
tuple, and the output equals the sequential in-order application. -/
theorem claim_c5 (game : GuiGame P) (loadOrder : List String)
    (mapper : P → Option Nat → Bool → Except String T) (sched : List Nat)
    (hcover : ∀ j, j < (buildLoadOrderData game loadOrder).length →
      j ∈ sched) :
    MapFromLoadOrderDataConc game loadOrder mapper sched =
      some (MapFromLoadOrderData game loadOrder mapper) := by
  unfold MapFromLoadOrderDataConc
  simp only []
  rw [slotsAfter_eq _ _ _ hcover]
  rw [if_pos (all_isSome_map_some _)]
  rw [reduceOption_map_some]
  rfl

/-- C5 witness: running phase 2 in reversed order on a two-plugin load
order yields the sequential result. -/
theorem claim_c5_witness :
    MapFromLoadOrderDataConc gameW ["a.esp", "c.esp"] mapperOk [1, 0] =
      some (MapFromLoadOrderData gameW ["a.esp", "c.esp"] mapperOk) :=
  claim_c5 gameW ["a.esp", "c.esp"] mapperOk [1, 0] (by decide)

/-- C6: `FindGameInstalls` returns zero, one, or two entries, the
sibling-scan result (if any) followed by the registry-scan result (if
any), with no de-duplication: when both scans yield the same install the
result contains it twice. -/
theorem claim_c6 :
    ∀ (env : Env) (gid : GameId) (os odr : Option GameInstall),
      FindSiblingGameInstall env gid = .ok os →
      FindGameInstallInRegistry env gid = .ok odr →
      FindGameInstalls env gid = .ok (os.toList ++ odr.toList) ∧
      (os.toList ++ odr.toList).length ≤ 2 ∧
      (∀ g : GameInstall, os = some g → odr = some g →
        FindGameInstalls env gid = .ok [g, g]) := by
  intro env gid os odr hs hr
  have hmain : FindGameInstalls env gid = .ok (os.toList ++ odr.toList) := by
    simp [FindGameInstalls, Bind.bind, Except.bind, hs, hr, pure, Except.pure]
  refine ⟨hmain, ?_, ?_⟩
  · cases os <;> cases odr <;> simp
  · intro g hos hor
    subst hos
    subst hor
    simpa using hmain

/-- C6 witness: a layout where the sibling path and the registry path are
the same valid GOG directory yields the same install twice. -/
theorem claim_c6_witness :
    FindGameInstalls envD GameId.tes4 =
      .ok [⟨GameId.tes4, InstallSource.gog, [".."], none⟩,
        ⟨GameId.tes4, InstallSource.gog, [".."], none⟩] :=
  (claim_c6 envD GameId.tes4
    (some ⟨GameId.tes4, InstallSource.gog, [".."], none⟩)
    (some ⟨GameId.tes4, InstallSource.gog, [".."], none⟩) rfl rfl).2.2
    ⟨GameId.tes4, InstallSource.gog, [".."], none⟩ rfl rfl

/-- C7: when the configured (type, master, path) triple fails the
external validity check, `DetectGameInstall` returns nothing — for every
environment with that validator outcome, so no classification check can
influence the result; when the triple passes (and the type is in the
recognised closed set), it always returns a `GameInstall` carrying the
configured local-data path. -/
theorem claim_c7 :
    (∀ (env : Env) (settings : GameSettings),
      env.isValidGamePath settings.type settings.master settings.gamePath =
        false →
      DetectGameInstall env settings = .ok none) ∧
    (∀ (env : Env) (settings : GameSettings),
      settings.type ≠ .unrecognised →
      env.isValidGamePath settings.type settings.master settings.gamePath =
        true →
      ∃ (gid : GameId) (src : InstallSource),
        DetectGameInstall env settings =
          .ok (some ⟨gid, src, settings.gamePath,
            some settings.gameLocalPath⟩)) := by
  constructor
  · intro env settings hvalid
    simp [DetectGameInstall, hvalid, pure, Except.pure]
  · intro env settings htype hvalid
    obtain ⟨gid, hgid, hgid'⟩ :=
      DetectGameId_isOk env settings.type settings.gamePath htype
    obtain ⟨s, hs⟩ := IsSteamInstall_isOk env gid settings.gamePath hgid'
    exact ⟨gid, _,
      DetectGameInstall_classify env settings gid s hvalid hgid hs⟩

/-- C7 witness: a valid configured triple yields an install carrying the
configured local-data path. -/
theorem claim_c7_witness :
    ∃ (gid : GameId) (src : InstallSource),
      DetectGameInstall envW settingsW =
        .ok (some ⟨gid, src, ["G"], some ["L"]⟩) :=
  claim_c7.2 envW settingsW (by decide) rfl

/-- C8 counterexample: the sibling scan performs no variant-marker
identity resolution.  With the Nehrim launcher marker present under the
parent directory, the sibling scan still emits the input identity
`tes4`, although identity resolution from the family and the candidate
path would return `nehrim`. -/
theorem claim_c8_counterexample :
    FindSiblingGameInstall envN GameId.tes4 =
      .ok (some ⟨GameId.tes4, InstallSource.unknown, [".."], none⟩) ∧
    DetectGameId envN (envN.getGameType GameId.tes4) [".."] =
      .ok GameId.nehrim ∧
    GameId.tes4 ≠ GameId.nehrim := by
  refine ⟨rfl, rfl, by simp⟩

/-- C8 (amended): in the sibling scan, the parent-directory candidate is
discarded when the external validator rejects it; otherwise a
`GameInstall` carrying the input identity unchanged (no variant-marker
resolution is performed), the priority-classified source, and no
local-data path is emitted. -/
theorem claim_c8_amended :
    ∀ (env : Env) (gid : GameId),
      (env.isValidGamePath (env.getGameType gid) (env.getMasterFilename gid)
          [".."] = false →
        FindSiblingGameInstall env gid = .ok none) ∧
      (∀ s : Bool,
        env.isValidGamePath (env.getGameType gid) (env.getMasterFilename gid)
          [".."] = true →
        IsSteamInstall env gid [".."] = .ok s →
        FindSiblingGameInstall env gid =
          .ok (some ⟨gid,
            classifySource s (IsGogInstall env gid [".."])
              (IsEpicInstall env [".."]) (IsMicrosoftInstall env [".."]),
            [".."], none⟩)) := by
  intro env gid
  constructor
  · intro hvalid
    simp [FindSiblingGameInstall, hvalid, pure, Except.pure]
  · intro s hvalid hsteam
    exact FindSiblingGameInstall_classify env gid s hvalid hsteam

/-- C8 witness: on a valid parent directory with no source markers the
sibling scan emits the input identity with source unknown and no
local-data path. -/
theorem claim_c8_witness :
    FindSiblingGameInstall envN GameId.tes4 =
      .ok (some ⟨GameId.tes4, InstallSource.unknown, [".."], none⟩) :=
  (claim_c8_amended envN GameId.tes4).2 false rfl rfl

/-- C9: for the families with a total-conversion variant (tes4, tes5,
tes5se), identity resolution returns the variant identity (nehrim,
enderal, enderalse) exactly when the variant's fixed launcher-executable
marker exists in the path, and the base identity otherwise; families
without variants map one-to-one to their identity regardless of path
contents. -/
theorem claim_c9 (env : Env) (p : Path) :
    (DetectGameId env .tes4 p = .ok .nehrim ↔
      env.fs (p ++ ["NehrimLauncher.exe"]) = true) ∧
    (DetectGameId env .tes4 p = .ok .tes4 ↔
      env.fs (p ++ ["NehrimLauncher.exe"]) = false) ∧
    (DetectGameId env .tes5 p = .ok .enderal ↔
      env.fs (p ++ ["Enderal Launcher.exe"]) = true) ∧
    (DetectGameId env .tes5 p = .ok .tes5 ↔
      env.fs (p ++ ["Enderal Launcher.exe"]) = false) ∧
    (DetectGameId env .tes5se p = .ok .enderalse ↔
      env.fs (p ++ ["Enderal Launcher.exe"]) = true) ∧
    (DetectGameId env .tes5se p = .ok .tes5se ↔
      env.fs (p ++ ["Enderal Launcher.exe"]) = false) ∧
    DetectGameId env .tes3 p = .ok .tes3 ∧
    DetectGameId env .tes5vr p = .ok .tes5vr ∧
    DetectGameId env .fo3 p = .ok .fo3 ∧
    DetectGameId env .fonv p = .ok .fonv ∧
    DetectGameId env .fo4 p = .ok .fo4 ∧
    DetectGameId env .fo4vr p = .ok .fo4vr := by
  refine ⟨?_, ?_, ?_, ?_, ?_, ?_, rfl, rfl, rfl, rfl, rfl, rfl⟩ <;>
    · simp only [DetectGameId]
      cases h : env.fs _ <;> simp [h]

/-- C10: the identity resolver, the Steam classifier and the registry-key
table raise exactly when their game type / game identity input lies
outside the recognised closed set, and never raise on recognised
inputs. -/
theorem claim_c10 (env : Env) (gid : GameId) (t : GameType) (p : Path) :
    ((∃ e, GetRegistryValue gid = .error e) ↔ gid = .unrecognised) ∧
    ((∃ e, IsSteamInstall env gid p = .error e) ↔ gid = .unrecognised) ∧
    ((∃ e, DetectGameId env t p = .error e) ↔ t = .unrecognised) := by
  refine ⟨?_, ?_, ?_⟩
  · cases gid <;> simp [GetRegistryValue]
  · cases gid <;> simp [IsSteamInstall]
  · cases t <;> simp [DetectGameId]

end Claims

end Loot
